import Mathlib

/-!
Shallow embedding of the `smartfilecmd` C++ backend
(`src/cpp_backend/utils.cpp`, `src/cpp_backend/actions.cpp`).

Paths and filenames are modelled as `String` (the C++ code manipulates
`std::filesystem::path` through its string form throughout).  The
filesystem itself is abstracted into an environment `FSEnv` of oracles:
what a directory scan returns, whether an individual rename / copy /
remove succeeds and with which error text, which directories exist, and
whether `create_directories` throws.  Each operation handler is a pure
function of the command and this environment, returning the
`FileOpResult` the C++ code builds together with the list of filesystem
mutations it attempted, in order (an empty list means the handler never
reached a mutating call).  Timestamps (`start_time` / `end_time`) carry
no decision logic and are omitted from the embedded result record.
-/

/-- ASCII lower-casing on code points, exactly the translation applied to
both sides of a character comparison by `std::regex` under
`std::regex::icase` in the default "C" locale (the setting used in
`matches_glob_pattern`). -/
def lowerNat (c : Char) : Nat :=
  if 65 ≤ c.toNat ∧ c.toNat ≤ 90 then c.toNat + 32 else c.toNat

/-- Case-insensitive character equality used by the compiled glob regex. -/
def eqi (c d : Char) : Bool := lowerNat c == lowerNat d

/-- One atom of the regex that `matches_glob_pattern` compiles:
`star` is the `.*` emitted for `*`, `anyChar` is the `.` emitted for `?`,
and `lit c` is the (possibly escape-protected) literal character `c`.
Escaped metacharacters (`\(`, `\.`, ...) and plain characters both match
as literals, so they share the `lit` constructor. -/
inductive GlobElem where
  | star : GlobElem
  | anyChar : GlobElem
  | lit : Char → GlobElem
deriving DecidableEq

/-- The atom produced for one character by the escaping loop of
`matches_glob_pattern` (utils.cpp lines 133-143): `*` becomes `.*`,
`?` becomes `.`, a regex metacharacter becomes an escaped literal and
every other character a plain literal. -/
def charElem (c : Char) : GlobElem :=
  if c = '*' then GlobElem.star
  else if c = '?' then GlobElem.anyChar
  else GlobElem.lit c

/-- The atom list of the full compiled regex: the escaping loop handles
the characters left to right, one atom each.  Since every metacharacter
other than the emitted `.*` and `.` is escaped, the resulting regex
source is always well-formed, so the `std::regex_error` fallback in
utils.cpp lines 148-151 is unreachable and is not modelled. -/
def toElems (l : List Char) : List GlobElem := l.map charElem

/-- The `**` pre-pass of `matches_glob_pattern` (utils.cpp lines 123-130):
replace each occurrence of `**` by the two characters `.` `*`, scanning
left to right and resuming the search after the replacement text. -/
def replaceStarStar : List Char → List Char
  | [] => []
  | [c] => [c]
  | c1 :: c2 :: rest =>
    if c1 = '*' ∧ c2 = '*' then '.' :: '*' :: replaceStarStar rest
    else c1 :: replaceStarStar (c2 :: rest)

/-- Anchored matching of an atom list against a string, the semantics of
`std::regex_match` (the whole subject must be consumed): `.*` consumes
an arbitrary prefix, `.` one character, a literal one equal character up
to `icase` translation. -/
def elemsMatch : List GlobElem → List Char → Bool
  | [], s => s.isEmpty
  | GlobElem.star :: es, s =>
    (List.range (s.length + 1)).any fun k => elemsMatch es (s.drop k)
  | GlobElem.anyChar :: es, s =>
    match s with
    | [] => false
    | _ :: ds => elemsMatch es ds
  | GlobElem.lit c :: es, s =>
    match s with
    | [] => false
    | d :: ds => eqi c d && elemsMatch es ds

/-- Model of `matches_glob_pattern` (utils.cpp lines 118-152): run the `**`
pre-pass, compile the escaped pattern to atoms and match the whole
filename case-insensitively. -/
def matches_glob_pattern (filename pattern : String) : Bool :=
  elemsMatch (toElems (replaceStarStar pattern.toList)) filename.toList

/-- Model of `matches_pattern` (utils.cpp lines 100-116): empty pattern matches
everything; a pattern holding `*` or `?` goes to the glob matcher; a
pattern whose first character is `.` is an extension match
(`std::string::ends_with`); anything else is exact equality. -/
def matches_pattern (filename pattern : String) : Bool :=
  if pattern.toList.isEmpty then true
  else if pattern.toList.contains '*' || pattern.toList.contains '?' then
    matches_glob_pattern filename pattern
  else if pattern.toList.head? = some '.' then
    pattern.toList.isSuffixOf filename.toList
  else filename == pattern

/-- The deny-list of `is_system_directory` (utils.cpp lines 25-28). -/
def system_dirs : List String :=
  ["/bin", "/sbin", "/usr", "/etc", "/var", "/lib", "/opt",
   "C:\\Windows", "C:\\Program Files", "C:\\Program Files (x86)"]

/-- Model of `is_system_directory` (utils.cpp lines 24-38): the C++ test
`path_str.find(sys_dir) == 0` is a plain string prefix test. -/
def is_system_directory (path : String) : Bool :=
  system_dirs.any fun d => d.toList.isPrefixOf path.toList

/-- Model of `is_safe_directory` (utils.cpp lines 10-22). -/
def is_safe_directory (path : String) : Bool :=
  if path == "/" || path == "C:\\" || path == "D:\\" then false
  else if is_system_directory path then false
  else true

/-- Model of `std::filesystem::path::filename().string()` for POSIX-style path
strings: the part after the last separator (empty for a path ending in
a separator). -/
def filename (p : String) : String :=
  String.mk ((p.toList.reverse.takeWhile fun c => c ≠ '/').reverse)

/-- Model of `std::filesystem::path::parent_path().string()` for POSIX-style path
strings: drop the last component together with the separators in front
of it; a single-component relative path has parent `""`, and the parent
of a path whose only component is the root is `"/"`. -/
def parent_path (p : String) : String :=
  let cs := p.toList
  if cs.contains '/' then
    let pre := (cs.reverse.dropWhile fun c => c ≠ '/').reverse
    let pre2 := (pre.reverse.dropWhile fun c => c = '/').reverse
    if pre2.isEmpty then "/" else String.mk pre2
  else ""

/-- Model of `operator/` on `std::filesystem::path` for the uses in this code
(appending a relative component): an absolute right side replaces the
left, an empty left side yields the right side, otherwise a `/` is
inserted unless the left side already ends in one. -/
def pathAppend (a b : String) : String :=
  if b.toList.head? = some '/' then b
  else if a.toList.isEmpty then b
  else if a.toList.getLast? = some '/' then a ++ b
  else a ++ "/" ++ b

/-- Model of `expand_path` (utils.cpp lines 154-162): a leading `~/` is replaced
by the home directory when it is known; otherwise the string is passed
through unchanged.  `home` models `std::getenv("HOME")`. -/
def expand_path (home : Option String) (p : String) : String :=
  match p.toList with
  | c1 :: c2 :: rest =>
    if c1 = '~' ∧ c2 = '/' then
      match home with
      | some h => pathAppend h (String.mk rest)
      | none => p
    else p
  | _ => p

/-- The `Command` structure (actions.hpp lines 10-19). -/
structure Command where
  action : String := ""
  pattern : String := ""
  source : String := ""
  destination : String := ""
  dry_run : Bool := false
  force : Bool := false
  recursive : Bool := false
  verbose : Bool := false

/-- The `FileOpResult` structure (utils.hpp lines 13-24), without the
two timestamp fields. -/
structure FileOpResult where
  success : Bool := false
  operation : String := ""
  message : String := ""
  error_message : String := ""
  files_scanned : Nat := 0
  files_matched : Nat := 0
  files_affected : Nat := 0
  errors : List String := []
deriving DecidableEq

/-- A filesystem mutation attempted by a handler.  `createDirs p`
denotes the `std::filesystem::create_directories(p)` call, which creates
the full path including missing intermediate directories. -/
inductive FSOp where
  | rename : String → String → FSOp
  | copyFile : String → String → FSOp
  | remove : String → FSOp
  | createDirs : String → FSOp
deriving DecidableEq

/-- The ambient filesystem, abstracted to the queries the handlers make:
scan results per directory, per-file success and error text of the three
mutating primitives, the set of existing directories, and whether
`create_directories` on a not-yet-existing path throws (with which
message). -/
structure FSEnv where
  home : Option String
  scan : String → List String
  scanRec : String → List String
  renameOk : String → String → Bool
  renameErr : String → String → String
  copyOk : String → String → Bool
  copyErr : String → String → String
  removeOk : String → Bool
  removeErr : String → String
  dirs : List String
  createFails : String → Bool
  createErrMsg : String → String

/-- The per-file try/catch loop shared in shape by the three mutating
handlers (actions.cpp lines 56-74, 137-155, 211-227): each file is
attempted in order; a success bumps the counter, a failure appends one
error string; either way the batch continues.  Returns
(successes, errors in order, attempted operations in order). -/
def runBatch (ok : String → Bool) (msg : String → String) (op : String → FSOp)
    (files : List String) : Nat × List String × List FSOp :=
  files.foldl
    (fun acc f =>
      if ok f then (acc.1 + 1, acc.2.1, acc.2.2 ++ [op f])
      else (acc.1, acc.2.1 ++ [msg f], acc.2.2 ++ [op f]))
    (0, [], [])

/-- Model of `move_files` (actions.cpp lines 8-87).  The verbose diagnostics go
to stderr only and are not modelled; the outer catch (lines 80-83) has
no reachable trigger in the modelled fragment since scans report errors
by returning partial results. -/
def move_files (env : FSEnv) (cmd : Command) : FileOpResult × List FSOp :=
  let r0 : FileOpResult := { operation := "move" }
  let source_path := expand_path env.home cmd.source
  let dest_path := expand_path env.home cmd.destination
  if ! is_safe_directory source_path then
    ({ r0 with
        success := false,
        error_message := "Source directory is not safe to operate on" }, [])
  else if ! is_safe_directory dest_path then
    ({ r0 with
        success := false,
        error_message := "Destination directory is not safe to operate on" }, [])
  else
    let files := if cmd.recursive then env.scanRec source_path else env.scan source_path
    let matching_files := files.filter fun f => matches_pattern (filename f) cmd.pattern
    let r1 := { r0 with files_scanned := files.length, files_matched := matching_files.length }
    if cmd.dry_run then
      ({ r1 with
        message := "Would move " ++ toString matching_files.length ++ " files",
        success := true }, [])
    else
      let b := runBatch
        (fun f => env.renameOk f (pathAppend dest_path (filename f)))
        (fun f => "Failed to move " ++ f ++ ": " ++
          env.renameErr f (pathAppend dest_path (filename f)))
        (fun f => FSOp.rename f (pathAppend dest_path (filename f)))
        matching_files
      ({ r1 with
        files_affected := b.1,
        errors := b.2.1,
        message := "Successfully moved " ++ toString b.1 ++ " files",
        success := true }, b.2.2)

/-- Model of `copy_files` (actions.cpp lines 89-168); identical shape to
`move_files` with `copy_file(..., overwrite_existing)` as the per-file
primitive. -/
def copy_files (env : FSEnv) (cmd : Command) : FileOpResult × List FSOp :=
  let r0 : FileOpResult := { operation := "copy" }
  let source_path := expand_path env.home cmd.source
  let dest_path := expand_path env.home cmd.destination
  if ! is_safe_directory source_path then
    ({ r0 with
        success := false,
        error_message := "Source directory is not safe to operate on" }, [])
  else if ! is_safe_directory dest_path then
    ({ r0 with
        success := false,
        error_message := "Destination directory is not safe to operate on" }, [])
  else
    let files := if cmd.recursive then env.scanRec source_path else env.scan source_path
    let matching_files := files.filter fun f => matches_pattern (filename f) cmd.pattern
    let r1 := { r0 with files_scanned := files.length, files_matched := matching_files.length }
    if cmd.dry_run then
      ({ r1 with
        message := "Would copy " ++ toString matching_files.length ++ " files",
        success := true }, [])
    else
      let b := runBatch
        (fun f => env.copyOk f (pathAppend dest_path (filename f)))
        (fun f => "Failed to copy " ++ f ++ ": " ++
          env.copyErr f (pathAppend dest_path (filename f)))
        (fun f => FSOp.copyFile f (pathAppend dest_path (filename f)))
        matching_files
      ({ r1 with
        files_affected := b.1,
        errors := b.2.1,
        message := "Successfully copied " ++ toString b.1 ++ " files",
        success := true }, b.2.2)

/-- Model of `delete_files` (actions.cpp lines 170-240): single safety check on
the source, per-file primitive `std::filesystem::remove`. -/
def delete_files (env : FSEnv) (cmd : Command) : FileOpResult × List FSOp :=
  let r0 : FileOpResult := { operation := "delete" }
  let source_path := expand_path env.home cmd.source
  if ! is_safe_directory source_path then
    ({ r0 with
        success := false,
        error_message := "Source directory is not safe to operate on" }, [])
  else
    let files := if cmd.recursive then env.scanRec source_path else env.scan source_path
    let matching_files := files.filter fun f => matches_pattern (filename f) cmd.pattern
    let r1 := { r0 with files_scanned := files.length, files_matched := matching_files.length }
    if cmd.dry_run then
      ({ r1 with
        message := "Would delete " ++ toString matching_files.length ++ " files",
        success := true }, [])
    else
      let b := runBatch
        (fun f => env.removeOk f)
        (fun f => "Failed to delete " ++ f ++ ": " ++ env.removeErr f)
        (fun f => FSOp.remove f)
        matching_files
      ({ r1 with
        files_affected := b.1,
        errors := b.2.1,
        message := "Successfully deleted " ++ toString b.1 ++ " files",
        success := true }, b.2.2)

/-- Whether `std::filesystem::create_directories(p)` throws in
environment `env`: never for an already existing directory (it then
returns `false` without error), otherwise as the environment dictates
(permission denied, component is a file, ...). -/
def create_directories_throws (env : FSEnv) (p : String) : Bool :=
  if env.dirs.contains p then false else env.createFails p

/-- Model of `create_folder` (actions.cpp lines 242-280): the safety check is on
`folder_path.parent_path()`, then dry-run preview, then the
`create_directories` call. -/
def create_folder (env : FSEnv) (cmd : Command) : FileOpResult × List FSOp :=
  let r0 : FileOpResult := { operation := "create_folder" }
  let folder_path := expand_path env.home cmd.destination
  if ! is_safe_directory (parent_path folder_path) then
    ({ r0 with
        success := false,
        error_message := "Parent directory is not safe to operate on" }, [])
  else if cmd.dry_run then
    ({ r0 with
        message := "Would create folder: " ++ folder_path,
        success := true }, [])
  else if create_directories_throws env folder_path then
    ({ r0 with
        success := false,
        error_message := "Create folder operation failed: " ++ env.createErrMsg folder_path },
     [FSOp.createDirs folder_path])
  else
    ({ r0 with
        files_affected := 1,
        message := "Successfully created folder: " ++ folder_path,
        success := true }, [FSOp.createDirs folder_path])

/-- Model of `validate_command` (actions.cpp lines 345-363). -/
def validate_command (cmd : Command) : Bool :=
  if cmd.action.toList.isEmpty then false
  else if cmd.action == "move" || cmd.action == "copy" then
    ! cmd.source.toList.isEmpty && ! cmd.destination.toList.isEmpty
  else if cmd.action == "delete" then
    ! cmd.source.toList.isEmpty
  else if cmd.action == "create_folder" then
    ! cmd.destination.toList.isEmpty
  else false

/-- Model of `execute_command` (actions.cpp lines 282-317): validation gate, then
dispatch on the action string (the final branch is kept although
`validate_command` only lets the four known actions through). -/
def execute_command (env : FSEnv) (cmd : Command) : FileOpResult × List FSOp :=
  if ! validate_command cmd then
    ({ success := false, error_message := "Invalid command" }, [])
  else if cmd.action == "move" then move_files env cmd
  else if cmd.action == "copy" then copy_files env cmd
  else if cmd.action == "delete" then delete_files env cmd
  else if cmd.action == "create_folder" then create_folder env cmd
  else ({ success := false, error_message := "Unknown action: " ++ cmd.action }, [])

/-! ## Derived notions used to state the batch properties -/

/-- The files a move/copy/delete handler scans: recursive or flat scan
of the expanded source directory. -/
def scanned_files (env : FSEnv) (cmd : Command) : List String :=
  if cmd.recursive then env.scanRec (expand_path env.home cmd.source)
  else env.scan (expand_path env.home cmd.source)

/-- The files that survive the pattern filter, which the handlers apply
to the base filename component of each scanned path. -/
def matched_files (env : FSEnv) (cmd : Command) : List String :=
  (scanned_files env cmd).filter fun f => matches_pattern (filename f) cmd.pattern

/-- Whether the rename of one file into the destination succeeds. -/
def move_ok (env : FSEnv) (cmd : Command) (f : String) : Bool :=
  env.renameOk f (pathAppend (expand_path env.home cmd.destination) (filename f))

/-- The error string `move_files` records for a failed rename. -/
def move_err_msg (env : FSEnv) (cmd : Command) (f : String) : String :=
  "Failed to move " ++ f ++ ": " ++
    env.renameErr f (pathAppend (expand_path env.home cmd.destination) (filename f))

/-- Whether the copy of one file into the destination succeeds. -/
def copy_ok (env : FSEnv) (cmd : Command) (f : String) : Bool :=
  env.copyOk f (pathAppend (expand_path env.home cmd.destination) (filename f))

/-- The error string `copy_files` records for a failed copy. -/
def copy_err_msg (env : FSEnv) (cmd : Command) (f : String) : String :=
  "Failed to copy " ++ f ++ ": " ++
    env.copyErr f (pathAppend (expand_path env.home cmd.destination) (filename f))

/-- The error string `delete_files` records for a failed removal. -/
def delete_err_msg (env : FSEnv) (f : String) : String :=
  "Failed to delete " ++ f ++ ": " ++ env.removeErr f

/-! ## Concrete fixtures used to instantiate the theorems -/

/-- A neutral environment: empty scans, always-succeeding primitives. -/
def envBase : FSEnv where
  home := none
  scan := fun _ => []
  scanRec := fun _ => []
  renameOk := fun _ _ => true
  renameErr := fun _ _ => ""
  copyOk := fun _ _ => true
  copyErr := fun _ _ => ""
  removeOk := fun _ => true
  removeErr := fun _ => ""
  dirs := []
  createFails := fun _ => false
  createErrMsg := fun _ => ""

/-- Environment with three `.txt` files in `/data`, where renaming
`/data/b.txt` fails with a lock error. -/
def envLockedB : FSEnv :=
  { envBase with
    scan := fun d => if d = "/data" then ["/data/a.txt", "/data/b.txt", "/data/c.txt"] else [],
    renameOk := fun s _ => ! (s == "/data/b.txt"),
    renameErr := fun _ _ => "locked" }

/-- Move all `.txt` files out of `/data`. -/
def cmdMoveTxt : Command :=
  { action := "move", pattern := "*.txt", source := "/data", destination := "/data2" }

/-- Move towards an unsafe (deny-listed) destination. -/
def cmdMoveUnsafeDest : Command :=
  { action := "move", pattern := "*.txt", source := "/data", destination := "/usr" }

/-- Invalid command: `move` with an empty destination. -/
def cmdMoveNoDest : Command :=
  { action := "move", source := "/data" }

/-- Environment with two files in `/data` for the dry-run fixture. -/
def envTwoFiles : FSEnv :=
  { envBase with
    scan := fun d => if d = "/data" then ["/data/a.txt", "/data/b.png"] else [] }

/-- The dry-run variant of the move command. -/
def cmdMoveTxtDry : Command :=
  { action := "move", pattern := "*.txt", source := "/data", destination := "/data2",
    dry_run := true }

/-- Environment where the directory `C:\Windows` already exists. -/
def envWinDir : FSEnv :=
  { envBase with dirs := ["C:\\Windows"] }

/-- Create a folder whose own path is deny-listed while its parent
(the empty relative path) is safe. -/
def cmdCreateWin : Command :=
  { action := "create_folder", destination := "C:\\Windows" }

/-- Environment whose recursive scan of `/data` finds a nested file. -/
def envNested : FSEnv :=
  { envBase with
    scanRec := fun d => if d = "/data" then ["/data/sub/a.txt"] else [] }

/-- Delete with a pattern containing a path separator. -/
def cmdDeleteWithSep : Command :=
  { action := "delete", pattern := "sub/*.txt", source := "/data", recursive := true }

/-- Create a single-component relative folder. -/
def cmdCreateRelative : Command :=
  { action := "create_folder", destination := "newdir" }

example : matches_pattern "a.txt" "*.txt" = true := by decide
example : matches_pattern "A.TXT" "*.txt" = true := by decide
example : matches_pattern "a.txtx" "*.txt" = false := by decide
example : matches_pattern "a.tx" "*.txt" = false := by decide
example : matches_glob_pattern "a.png" "**/*.png" = false := by decide
example : matches_glob_pattern ".d/x.png" "**/*.png" = true := by decide
example : is_safe_directory "/" = false := by decide
example : is_safe_directory "/usrlocal" = false := by decide
example : is_safe_directory "/tmp" = true := by decide
example : filename "a/b/c.txt" = "c.txt" := by decide
example : parent_path "/home/user/x" = "/home/user" := by decide
example : parent_path "folder" = "" := by decide
example : parent_path "/a" = "/" := by decide

/-! ## Helper lemmas -/

/-- A list splits into the part kept and the part dropped by a filter. -/
theorem length_filter_add_length_filter_not {α : Type} (p : α → Bool) (l : List α) :
    (l.filter p).length + (l.filter fun a => ! p a).length = l.length := by
  induction l with
  | nil => rfl
  | cons a l ih =>
    by_cases h : p a = true <;>
      simp [List.filter_cons, h, ← ih] <;> omega

/-- Model of `std::string::empty` through the character list. -/
theorem toList_isEmpty_iff (s : String) : s.toList.isEmpty = true ↔ s = "" := by
  rw [List.isEmpty_iff, String.ext_iff]
  exact Iff.rfl

theorem toList_isEmpty_eq_false_iff (s : String) : s.toList.isEmpty = false ↔ s ≠ "" := by
  rw [← Bool.not_eq_true, not_iff_not]
  exact toList_isEmpty_iff s

/-- Closed form of the per-file batch loop: the success counter is the
number of files whose primitive succeeded, the error list has exactly
one message per failing file in scan order, and every file is attempted
in order. -/
theorem runBatch_eq (ok : String → Bool) (msg : String → String) (op : String → FSOp)
    (l : List String) :
    runBatch ok msg op l =
      ((l.filter ok).length,
       (l.filter fun f => ! ok f).map msg,
       l.map op) := by
  suffices h : ∀ (l : List String) (n : Nat) (es : List String) (t : List FSOp),
      l.foldl (fun acc f =>
          if ok f then (acc.1 + 1, acc.2.1, acc.2.2 ++ [op f])
          else (acc.1, acc.2.1 ++ [msg f], acc.2.2 ++ [op f])) (n, es, t)
        = (n + (l.filter ok).length,
           es ++ (l.filter fun f => ! ok f).map msg,
           t ++ l.map op) by
    simpa [runBatch] using h l 0 [] []
  intro l
  induction l with
  | nil => intro n es t; simp
  | cons f l ih =>
    intro n es t
    by_cases hf : ok f = true
    · simp [hf, ih, List.filter_cons]
      omega
    · simp [hf, ih, List.filter_cons]

/-! ## Claim C1 -/

/-- C1: the claim that `**` matches any character sequence fails on the
code.  The `**` pre-pass inserts the two characters `.` `*`, but the
escaping loop that runs afterwards re-escapes the inserted `.` to `\.`
and expands the inserted `*` to `.*`, so the pattern `**/*.png`
compiles to the regex `\..*/.*\.png`: it only accepts filenames that
begin with a literal dot and contain a separator.  The plain filename
`a.png` ends in `.png` yet is rejected, while `.hidden/x.png` is
accepted, exhibiting the actual behaviour. -/
theorem claim1_starstar_png_eval :
    matches_glob_pattern "a.png" "**/*.png" = false
  ∧ matches_glob_pattern ".hidden/x.png" "**/*.png" = true := by
  exact ⟨by decide, by decide⟩

/-! ## Claim C5 -/

/-- C5: `is_safe_directory` returns `false` exactly on the three
hard-coded root paths and on paths having a deny-listed system
directory as a string prefix, and `true` otherwise; with the spec's
concrete examples, including the over-broad prefix match on
`/usrlocal`. -/
theorem claim5_is_safe_directory_spec (p : String) :
    (is_safe_directory p = false ↔
      (p = "/" ∨ p = "C:\\" ∨ p = "D:\\" ∨
        ∃ d ∈ system_dirs, d.toList <+: p.toList))
  ∧ is_safe_directory "/" = false
  ∧ is_safe_directory "/bin" = false
  ∧ is_safe_directory "/usr/local" = false
  ∧ is_safe_directory "/usrlocal" = false
  ∧ is_safe_directory "/home/user" = true
  ∧ is_safe_directory "/tmp" = true := by
  refine ⟨?_, by decide, by decide, by decide, by decide, by decide, by decide⟩
  have key : is_safe_directory p = false ↔
      ((p == "/" || p == "C:\\" || p == "D:\\") = true ∨
        (system_dirs.any fun d => d.toList.isPrefixOf p.toList) = true) := by
    unfold is_safe_directory is_system_directory
    cases hb : (p == "/" || p == "C:\\" || p == "D:\\") <;>
      cases ha : (system_dirs.any fun d => d.toList.isPrefixOf p.toList) <;>
        simp
  rw [key]
  simp only [Bool.or_eq_true, beq_iff_eq, List.any_eq_true, List.isPrefixOf_iff_prefix]
  tauto

/-! ## Claim C6 -/

/-- C6: `validate_command` accepts a command exactly when its action is
one of the four known actions with the fields that action requires
non-empty; on a failed validation `execute_command` returns
success=false with error_message "Invalid command", every other field
at its default, and attempts no filesystem operation. -/
theorem claim6_validate_and_invalid_result (env : FSEnv) (cmd : Command) :
    (validate_command cmd = true ↔
      (((cmd.action = "move" ∨ cmd.action = "copy") ∧
          cmd.source ≠ "" ∧ cmd.destination ≠ "")
       ∨ (cmd.action = "delete" ∧ cmd.source ≠ "")
       ∨ (cmd.action = "create_folder" ∧ cmd.destination ≠ "")))
  ∧ (validate_command cmd = false →
      execute_command env cmd =
        ({ success := false, error_message := "Invalid command" }, [])) := by
  constructor
  · unfold validate_command
    by_cases he : cmd.action = ""
    · simp [he]
    · by_cases hm : cmd.action = "move"
      · simp [hm, Bool.and_eq_true, Bool.not_eq_true', String.ext_iff]
      · by_cases hc : cmd.action = "copy"
        · simp [hc, Bool.and_eq_true, Bool.not_eq_true', String.ext_iff]
        · by_cases hd : cmd.action = "delete"
          · simp [hd, Bool.not_eq_true', String.ext_iff]
          · by_cases hf : cmd.action = "create_folder"
            · simp [hf, Bool.not_eq_true', String.ext_iff]
            · simp [he, hm, hc, hd, hf, toList_isEmpty_iff]
  · intro h
    unfold execute_command
    simp [h]

/-! ## Claim C10 -/

/-- A path string without a separator is left unchanged by
`expand_path` (it cannot begin with the two characters `~/`). -/
theorem expand_path_no_separator (home : Option String) (p : String)
    (hs : p.toList.contains '/' = false) :
    expand_path home p = p := by
  unfold expand_path
  cases hL : p.toList with
  | nil => rfl
  | cons c rest =>
    cases rest with
    | nil => rfl
    | cons c2 rest2 =>
      have hcc : ¬ (c = '~' ∧ c2 = '/') := by
        rintro ⟨-, rfl⟩
        rw [hL] at hs
        simp at hs
      simp [hcc]

/-- C10: for a `create_folder` whose destination is a single-component
relative path, the parent path is empty, `is_safe_directory` accepts
the empty path, and the handler goes on to call `create_directories`
on the destination. -/
theorem claim10_create_folder_relative_parent (env : FSEnv) (cmd : Command)
    (hs : cmd.destination.toList.contains '/' = false)
    (hd : cmd.dry_run = false) :
    is_safe_directory (parent_path (expand_path env.home cmd.destination)) = true
  ∧ (create_folder env cmd).2 = [FSOp.createDirs cmd.destination] := by
  have hexp := expand_path_no_separator env.home cmd.destination hs
  have hpp : parent_path cmd.destination = "" := by
    unfold parent_path
    simp only [hs]
    rfl
  have h0 : is_safe_directory "" = true := by decide
  have hsafe : is_safe_directory (parent_path cmd.destination) = true := by
    rw [hpp]
    exact h0
  refine ⟨by rw [hexp, hpp]; exact h0, ?_⟩
  cases hth : create_directories_throws env cmd.destination <;>
    simp [create_folder, hexp, hsafe, hd, hth]

/-! ## Claim C8 -/

/-- C8: `create_folder` safety-checks the parent of the expanded
destination, not the destination itself; without dry-run it calls
`create_directories` on the full destination path (missing intermediate
directories included) and, whenever that call does not throw, returns
success with `files_affected = 1` and no error — in particular for a
fresh destination whose creation succeeds.  An already existing
destination directory never makes `create_directories` throw, so the
handler also succeeds idempotently on re-creation. -/
theorem claim8_create_folder_parent_check (env : FSEnv) (cmd : Command)
    (hd : cmd.dry_run = false)
    (hsafe : is_safe_directory (parent_path (expand_path env.home cmd.destination)) = true) :
    (expand_path env.home cmd.destination ∈ env.dirs →
       create_directories_throws env (expand_path env.home cmd.destination) = false)
  ∧ (create_directories_throws env (expand_path env.home cmd.destination) = false →
       create_folder env cmd =
         ({ operation := "create_folder", success := true, files_affected := 1,
            message := "Successfully created folder: " ++ expand_path env.home cmd.destination },
          [FSOp.createDirs (expand_path env.home cmd.destination)])) := by
  constructor
  · intro hmem
    simp [create_directories_throws, hmem]
  · intro hok
    simp [create_folder, hsafe, hd, hok]

/-- C8 witness: destination `C:\Windows` is itself deny-listed but its
parent (the empty path) is safe.  Against `envBase` the directory does
not yet exist and its creation succeeds with `files_affected = 1`;
against `envWinDir` it already exists and the handler succeeds
identically (idempotent re-creation). -/
theorem claim8_create_folder_witness :
    cmdCreateWin.dry_run = false
  ∧ is_safe_directory "C:\\Windows" = false
  ∧ is_safe_directory (parent_path (expand_path envBase.home cmdCreateWin.destination)) = true
  ∧ envBase.dirs.contains (expand_path envBase.home cmdCreateWin.destination) = false
  ∧ create_folder envBase cmdCreateWin =
      ({ operation := "create_folder", success := true, files_affected := 1,
         message := "Successfully created folder: " ++
           expand_path envBase.home cmdCreateWin.destination },
       [FSOp.createDirs (expand_path envBase.home cmdCreateWin.destination)])
  ∧ envWinDir.dirs.contains (expand_path envWinDir.home cmdCreateWin.destination) = true
  ∧ create_folder envWinDir cmdCreateWin =
      ({ operation := "create_folder", success := true, files_affected := 1,
         message := "Successfully created folder: " ++
           expand_path envWinDir.home cmdCreateWin.destination },
       [FSOp.createDirs (expand_path envWinDir.home cmdCreateWin.destination)]) := by
  have hfresh :=
    (claim8_create_folder_parent_check envBase cmdCreateWin rfl (by decide)).2 (by decide)
  have hexist := claim8_create_folder_parent_check envWinDir cmdCreateWin rfl (by decide)
  exact ⟨rfl, by decide, by decide, by decide, hfresh, by decide,
    hexist.2 (hexist.1 (by decide))⟩

/-- C10 witness: creating the single-component relative folder
`newdir` passes the parent safety check and reaches the
`create_directories` call. -/
theorem claim10_witness :
    cmdCreateRelative.destination.toList.contains '/' = false
  ∧ cmdCreateRelative.dry_run = false
  ∧ (is_safe_directory (parent_path (expand_path envBase.home cmdCreateRelative.destination)) = true
     ∧ (create_folder envBase cmdCreateRelative).2 = [FSOp.createDirs cmdCreateRelative.destination]) :=
  ⟨by decide, rfl,
    claim10_create_folder_relative_parent envBase cmdCreateRelative (by decide) rfl⟩

/-- C6 witness: a `move` with no destination fails validation, and the
executor returns the bare "Invalid command" result. -/
theorem claim6_witness :
    validate_command cmdMoveNoDest = false
  ∧ execute_command envBase cmdMoveNoDest =
      ({ success := false, error_message := "Invalid command" }, []) :=
  ⟨by decide,
    (claim6_validate_and_invalid_result envBase cmdMoveNoDest).2 (by decide)⟩

/-! ## Claim C3 -/

/-- C3: when the expanded source or destination of a move/copy is
unsafe, the handler aborts before scanning: success is false, a
non-empty error message is set, all three counters are zero, the
per-file error list is empty, and no filesystem operation is attempted. -/
theorem claim3_unsafe_abort (env : FSEnv) (cmd : Command)
    (h : is_safe_directory (expand_path env.home cmd.source) = false
       ∨ is_safe_directory (expand_path env.home cmd.destination) = false) :
    ((move_files env cmd).1.success = false
     ∧ (move_files env cmd).1.error_message ≠ ""
     ∧ (move_files env cmd).1.files_scanned = 0
     ∧ (move_files env cmd).1.files_matched = 0
     ∧ (move_files env cmd).1.files_affected = 0
     ∧ (move_files env cmd).1.errors = []
     ∧ (move_files env cmd).2 = [])
  ∧ ((copy_files env cmd).1.success = false
     ∧ (copy_files env cmd).1.error_message ≠ ""
     ∧ (copy_files env cmd).1.files_scanned = 0
     ∧ (copy_files env cmd).1.files_matched = 0
     ∧ (copy_files env cmd).1.files_affected = 0
     ∧ (copy_files env cmd).1.errors = []
     ∧ (copy_files env cmd).2 = []) := by
  cases hs : is_safe_directory (expand_path env.home cmd.source) with
  | false => exact ⟨by simp [move_files, hs], by simp [copy_files, hs]⟩
  | true =>
    have hdd : is_safe_directory (expand_path env.home cmd.destination) = false := by
      rcases h with h1 | h2
      · rw [hs] at h1
        cases h1
      · exact h2
    exact ⟨by simp [move_files, hs, hdd], by simp [copy_files, hs, hdd]⟩

/-- C3 witness: moving `*.txt` from `/data` to the deny-listed `/usr`
aborts with no scan, no per-file errors and no attempted operation. -/
theorem claim3_witness :
    is_safe_directory (expand_path envBase.home cmdMoveUnsafeDest.destination) = false
  ∧ (move_files envBase cmdMoveUnsafeDest).1.success = false
  ∧ (move_files envBase cmdMoveUnsafeDest).1.error_message ≠ ""
  ∧ (move_files envBase cmdMoveUnsafeDest).1.files_affected = 0
  ∧ (move_files envBase cmdMoveUnsafeDest).1.errors = []
  ∧ (move_files envBase cmdMoveUnsafeDest).2 = [] := by
  have h := claim3_unsafe_abort envBase cmdMoveUnsafeDest (Or.inr (by decide))
  exact ⟨by decide, h.1.1, h.1.2.1, h.1.2.2.2.2.1, h.1.2.2.2.2.2.1, h.1.2.2.2.2.2.2⟩

/-! ## Claim C7 -/

/-- C7: on safe directories, a dry-run move/copy/delete attempts no
filesystem operation, keeps `files_affected` at zero, succeeds with the
preview message "Would move/copy/delete N files" for N the matched
count, and its `files_scanned`/`files_matched` only depend on the scan
results: a second environment with the same home and the same scans
(the unchanged filesystem of the second run) produces identical
counters. -/
theorem claim7_dry_run_preview (env env2 : FSEnv) (cmd : Command)
    (hd : cmd.dry_run = true)
    (hs : is_safe_directory (expand_path env.home cmd.source) = true)
    (hdst : is_safe_directory (expand_path env.home cmd.destination) = true)
    (hhome : env2.home = env.home)
    (hscan : ∀ d, env2.scan d = env.scan d)
    (hscanRec : ∀ d, env2.scanRec d = env.scanRec d) :
    ((move_files env cmd).2 = []
     ∧ (move_files env cmd).1.files_affected = 0
     ∧ (move_files env cmd).1.success = true
     ∧ (move_files env cmd).1.message =
         "Would move " ++ toString (move_files env cmd).1.files_matched ++ " files"
     ∧ (move_files env2 cmd).1.files_scanned = (move_files env cmd).1.files_scanned
     ∧ (move_files env2 cmd).1.files_matched = (move_files env cmd).1.files_matched)
  ∧ ((copy_files env cmd).2 = []
     ∧ (copy_files env cmd).1.files_affected = 0
     ∧ (copy_files env cmd).1.success = true
     ∧ (copy_files env cmd).1.message =
         "Would copy " ++ toString (copy_files env cmd).1.files_matched ++ " files"
     ∧ (copy_files env2 cmd).1.files_scanned = (copy_files env cmd).1.files_scanned
     ∧ (copy_files env2 cmd).1.files_matched = (copy_files env cmd).1.files_matched)
  ∧ ((delete_files env cmd).2 = []
     ∧ (delete_files env cmd).1.files_affected = 0
     ∧ (delete_files env cmd).1.success = true
     ∧ (delete_files env cmd).1.message =
         "Would delete " ++ toString (delete_files env cmd).1.files_matched ++ " files"
     ∧ (delete_files env2 cmd).1.files_scanned = (delete_files env cmd).1.files_scanned
     ∧ (delete_files env2 cmd).1.files_matched = (delete_files env cmd).1.files_matched) := by
  have hs2 : is_safe_directory (expand_path env2.home cmd.source) = true := by
    rw [hhome]
    exact hs
  have hdst2 : is_safe_directory (expand_path env2.home cmd.destination) = true := by
    rw [hhome]
    exact hdst
  refine ⟨⟨?_, ?_, ?_, ?_, ?_, ?_⟩, ⟨?_, ?_, ?_, ?_, ?_, ?_⟩, ⟨?_, ?_, ?_, ?_, ?_, ?_⟩⟩ <;>
    simp [move_files, copy_files, delete_files, hd, hs, hdst, hs2, hdst2,
      hhome, hscan, hscanRec]

/-- C7 witness: a dry-run move of `*.txt` from a directory holding
`a.txt` and `b.png` attempts nothing, reports success with the preview
message, and a repeat run over the same scans gives the same counts. -/
theorem claim7_witness :
    (move_files envTwoFiles cmdMoveTxtDry).2 = []
  ∧ (move_files envTwoFiles cmdMoveTxtDry).1.files_affected = 0
  ∧ (move_files envTwoFiles cmdMoveTxtDry).1.success = true
  ∧ (move_files envTwoFiles cmdMoveTxtDry).1.message =
      "Would move " ++ toString (move_files envTwoFiles cmdMoveTxtDry).1.files_matched ++ " files" := by
  have h := claim7_dry_run_preview envTwoFiles envTwoFiles cmdMoveTxtDry rfl
    (by decide) (by decide) rfl (fun _ => rfl) (fun _ => rfl)
  exact ⟨h.1.1, h.1.2.1, h.1.2.2.1, h.1.2.2.2.1⟩

/-! ## Claim C2 -/

/-- Splitting a filtered list by a second predicate preserves length. -/
theorem length_filter_and_add {α : Type} (p q : α → Bool) (l : List α) :
    (l.filter fun a => p a && q a).length + (l.filter fun a => !p a && q a).length
      = (l.filter q).length := by
  induction l with
  | nil => rfl
  | cons a l ih =>
    cases hp : p a <;> cases hq : q a <;>
      simp [List.filter_cons, hp, hq, ← ih] <;> omega

/-- C2: in a non-dry-run move/copy/delete over safe directories, each
per-file failure contributes exactly one error string (in scan order)
while the batch continues; the handler still reports success, counts
the succeeding files in `files_affected`, and `files_affected` plus the
number of errors equals `files_matched`. -/
theorem claim2_per_file_failures (env : FSEnv) (cmd : Command)
    (hd : cmd.dry_run = false)
    (hs : is_safe_directory (expand_path env.home cmd.source) = true)
    (hdst : is_safe_directory (expand_path env.home cmd.destination) = true) :
    ((move_files env cmd).1.success = true
     ∧ (move_files env cmd).1.files_affected =
         ((matched_files env cmd).filter (move_ok env cmd)).length
     ∧ (move_files env cmd).1.errors =
         ((matched_files env cmd).filter fun f => ! move_ok env cmd f).map (move_err_msg env cmd)
     ∧ (move_files env cmd).1.files_affected + (move_files env cmd).1.errors.length
         = (move_files env cmd).1.files_matched)
  ∧ ((copy_files env cmd).1.success = true
     ∧ (copy_files env cmd).1.files_affected =
         ((matched_files env cmd).filter (copy_ok env cmd)).length
     ∧ (copy_files env cmd).1.errors =
         ((matched_files env cmd).filter fun f => ! copy_ok env cmd f).map (copy_err_msg env cmd)
     ∧ (copy_files env cmd).1.files_affected + (copy_files env cmd).1.errors.length
         = (copy_files env cmd).1.files_matched)
  ∧ ((delete_files env cmd).1.success = true
     ∧ (delete_files env cmd).1.files_affected =
         ((matched_files env cmd).filter env.removeOk).length
     ∧ (delete_files env cmd).1.errors =
         ((matched_files env cmd).filter fun f => ! env.removeOk f).map (delete_err_msg env)
     ∧ (delete_files env cmd).1.files_affected + (delete_files env cmd).1.errors.length
         = (delete_files env cmd).1.files_matched) := by
  refine ⟨⟨?_, ?_, ?_, ?_⟩, ⟨?_, ?_, ?_, ?_⟩, ⟨?_, ?_, ?_, ?_⟩⟩ <;>
    simp [move_files, copy_files, delete_files, hd, hs, hdst, runBatch_eq,
      scanned_files, matched_files, move_ok, move_err_msg, copy_ok, copy_err_msg,
      delete_err_msg, length_filter_and_add]

/-- C2 witness: three matched `.txt` files of which only `/data/b.txt`
fails to rename: the batch succeeds with `files_affected = 2` and
exactly one error referencing `b.txt`, and 2 + 1 = 3 matched. -/
theorem claim2_witness :
    (move_files envLockedB cmdMoveTxt).1.success = true
  ∧ (move_files envLockedB cmdMoveTxt).1.files_affected = 2
  ∧ (move_files envLockedB cmdMoveTxt).1.errors = ["Failed to move /data/b.txt: locked"]
  ∧ (move_files envLockedB cmdMoveTxt).1.files_matched = 3
  ∧ (move_files envLockedB cmdMoveTxt).1.files_affected +
      (move_files envLockedB cmdMoveTxt).1.errors.length
      = (move_files envLockedB cmdMoveTxt).1.files_matched := by
  have h := claim2_per_file_failures envLockedB cmdMoveTxt rfl (by decide) (by decide)
  refine ⟨h.1.1, ?_, ?_, by decide, h.1.2.2.2⟩
  · rw [h.1.2.1]
    decide
  · rw [h.1.2.2.1]
    decide

/-! ## Claim C4 -/

/-- C4: the dispatch of `matches_pattern`: empty pattern always
matches; a pattern with a wildcard goes to the case-insensitive,
fully-anchored glob matcher (witnessed on `*.txt`); a wildcard-free
pattern beginning with `.` matches exactly the filenames ending in the
pattern; any other pattern matches only the identical filename. -/
theorem claim4_matches_pattern_dispatch (f p : String) :
    matches_pattern f "" = true
  ∧ ((p.toList.contains '*' = true ∨ p.toList.contains '?' = true) →
      matches_pattern f p = matches_glob_pattern f p)
  ∧ (p.toList.contains '*' = false → p.toList.contains '?' = false →
      p.toList.head? = some '.' →
      (matches_pattern f p = true ↔ p.toList <:+ f.toList))
  ∧ (p ≠ "" → p.toList.contains '*' = false → p.toList.contains '?' = false →
      p.toList.head? ≠ some '.' →
      (matches_pattern f p = true ↔ f = p))
  ∧ matches_pattern "a.txt" "*.txt" = true
  ∧ matches_pattern "A.TXT" "*.txt" = true
  ∧ matches_pattern "a.txtx" "*.txt" = false
  ∧ matches_pattern "a.tx" "*.txt" = false := by
  refine ⟨by simp [matches_pattern], ?_, ?_, ?_, by decide, by decide, by decide, by decide⟩
  · intro h
    have hm : ('*' ∈ p.data ∨ '?' ∈ p.data) := by
      rcases h with h | h
      · exact Or.inl (by simpa using h)
      · exact Or.inr (by simpa using h)
    have hne : p.data ≠ [] := by
      intro h0
      rw [h0] at hm
      rcases hm with hm | hm <;> simp at hm
    simp [matches_pattern, hne, hm]
  · intro h1 h2 h3
    have hne : p.toList.isEmpty = false := by
      rw [List.isEmpty_eq_false]
      intro h0
      rw [h0] at h3
      cases h3
    simp only [matches_pattern, hne, Bool.false_eq_true, if_false, h1, h2,
      Bool.or_self, h3, if_true]
    exact List.isSuffixOf_iff_suffix
  · intro h0 h1 h2 h3
    have hne : p.toList.isEmpty = false := by
      rw [List.isEmpty_eq_false]
      intro hx
      exact h0 ((toList_isEmpty_iff p).1 (by rw [hx]; rfl))
    simp only [matches_pattern, hne, Bool.false_eq_true, if_false, h1, h2,
      Bool.or_self, h3, if_false]
    simp [h3]

/-- C4 witness: the extension branch on `.txt` against `notes.txt`
reduces to the suffix relation, and the exact branch on `readme`
reduces to string equality. -/
theorem claim4_witness :
    (matches_pattern "notes.txt" ".txt" = true ↔
       (".txt" : String).toList <:+ ("notes.txt" : String).toList)
  ∧ (matches_pattern "readme" "readme" = true ↔ ("readme" : String) = "readme") :=
  ⟨(claim4_matches_pattern_dispatch "notes.txt" ".txt").2.2.1 (by decide) (by decide) (by decide),
   (claim4_matches_pattern_dispatch "readme" "readme").2.2.2.1 (by decide) (by decide)
     (by decide) (by decide)⟩

/-! ## Claim C9 -/

/-- Under `icase` translation, only a slash compares equal to a slash
(no character lower-cases to `/`). -/
theorem eq_slash_of_eqi_slash (d : Char) (h : eqi '/' d = true) : d = '/' := by
  unfold eqi lowerNat at h
  rw [beq_iff_eq] at h
  have h47 : ('/' : Char).toNat = 47 := by decide
  rw [h47] at h
  norm_num at h
  by_cases hc : 65 ≤ d.toNat ∧ d.toNat ≤ 90
  · exfalso
    rw [if_pos hc] at h
    omega
  · rw [if_neg hc] at h
    have hof : Char.ofNat d.toNat = Char.ofNat 47 := by rw [← h]
    rw [Char.ofNat_toNat] at hof
    rw [hof]

/-- If the compiled atom list holds a literal slash, every string it
matches holds a slash. -/
theorem slash_mem_of_elemsMatch (es : List GlobElem) :
    ∀ s : List Char, elemsMatch es s = true → GlobElem.lit '/' ∈ es → '/' ∈ s := by
  induction es with
  | nil =>
    intro s h hmem
    cases hmem
  | cons e es ih =>
    intro s h hmem
    cases e with
    | star =>
      simp only [elemsMatch, List.any_eq_true, List.mem_range] at h
      obtain ⟨k, _, hmatch⟩ := h
      have hmem' : GlobElem.lit '/' ∈ es := by
        cases hmem with
        | tail _ hmem' => exact hmem'
      exact List.mem_of_mem_drop (ih (s.drop k) hmatch hmem')
    | anyChar =>
      cases s with
      | nil => simp [elemsMatch] at h
      | cons d ds =>
        simp only [elemsMatch] at h
        have hmem' : GlobElem.lit '/' ∈ es := by
          cases hmem with
          | tail _ hmem' => exact hmem'
        exact List.mem_cons_of_mem _ (ih ds h hmem')
    | lit c =>
      cases s with
      | nil => simp [elemsMatch] at h
      | cons d ds =>
        simp only [elemsMatch, Bool.and_eq_true] at h
        obtain ⟨hcd, hrest⟩ := h
        cases hmem with
        | head =>
          rw [eq_slash_of_eqi_slash d hcd]
          exact List.mem_cons_self _ _
        | tail _ hmem' =>
          exact List.mem_cons_of_mem _ (ih ds hrest hmem')

/-- The `**` pre-pass keeps every slash of the pattern. -/
theorem slash_mem_replaceStarStar_aux :
    ∀ (n : Nat) (l : List Char), l.length ≤ n → '/' ∈ l → '/' ∈ replaceStarStar l := by
  intro n
  induction n with
  | zero =>
    intro l hl h
    rw [Nat.le_zero, List.length_eq_zero] at hl
    rw [hl] at h
    cases h
  | succ n ih =>
    intro l hl h
    obtain _ | ⟨c1, _ | ⟨c2, rest⟩⟩ := l
    · cases h
    · simpa [replaceStarStar] using h
    · rw [replaceStarStar]
      by_cases hc : c1 = '*' ∧ c2 = '*'
      · rw [if_pos hc]
        have h' : '/' ∈ rest := by
          obtain ⟨h1, h2⟩ := hc
          subst h1
          subst h2
          simpa using h
        refine List.mem_cons_of_mem _ (List.mem_cons_of_mem _ ?_)
        exact ih rest (by simp at hl; omega) h'
      · rw [if_neg hc]
        rcases List.mem_cons.mp h with h1 | h2
        · rw [← h1]
          exact List.mem_cons_self _ _
        · refine List.mem_cons_of_mem _ (ih (c2 :: rest) ?_ h2)
          simp at hl ⊢
          omega

theorem slash_mem_replaceStarStar (l : List Char) (h : '/' ∈ l) :
    '/' ∈ replaceStarStar l :=
  slash_mem_replaceStarStar_aux l.length l (Nat.le_refl _) h

/-- A slash in the (pre-passed) pattern becomes a literal slash atom. -/
theorem lit_slash_mem_toElems (l : List Char) (h : '/' ∈ l) :
    GlobElem.lit '/' ∈ toElems l := by
  have hch : charElem '/' = GlobElem.lit '/' := by decide
  have hm := List.mem_map_of_mem charElem h
  rw [hch] at hm
  exact hm

/-- A glob pattern holding a separator never matches a string without
one. -/
theorem matches_glob_pattern_slash (fn p : String)
    (hp : '/' ∈ p.data) (hf : ¬ '/' ∈ fn.data) :
    matches_glob_pattern fn p = false := by
  rw [Bool.eq_false_iff]
  intro hmatch
  exact hf (slash_mem_of_elemsMatch _ _ hmatch
    (lit_slash_mem_toElems _ (slash_mem_replaceStarStar _ hp)))

/-- The filename component of a path never holds a separator. -/
theorem slash_not_mem_filename (p : String) : ¬ '/' ∈ (filename p).data := by
  intro h
  have h' : '/' ∈ (p.data.reverse.takeWhile fun c => c ≠ '/').reverse := h
  rw [List.mem_reverse] at h'
  have := List.mem_takeWhile_imp h'
  simp at this

/-- In every branch of `matches_pattern`, a pattern holding a separator
cannot match a filename without one. -/
theorem matches_pattern_slash_pattern (fn p : String)
    (hp : '/' ∈ p.data) (hf : ¬ '/' ∈ fn.data) :
    matches_pattern fn p = false := by
  rw [Bool.eq_false_iff]
  intro hm
  unfold matches_pattern at hm
  split at hm
  · next hcond =>
    have hq : p.data = [] := by simpa using hcond
    rw [hq] at hp
    cases hp
  · split at hm
    · rw [matches_glob_pattern_slash fn p hp hf] at hm
      cases hm
    · split at hm
      · rw [List.isSuffixOf_iff_suffix] at hm
        exact hf (hm.subset hp)
      · rw [beq_iff_eq] at hm
        rw [hm] at hf
        exact hf hp

/-- C9: the move/copy/delete handlers filter on the base filename
component only, and a filename component never holds a separator, so a
pattern holding `/` matches no scanned file at all — even under a
recursive scan the matched set, the affected count and the error list
are empty, whatever the environment returns. -/
theorem claim9_filename_only_filter (env : FSEnv) (cmd : Command)
    (h : '/' ∈ cmd.pattern.data) :
    (∀ f : String, matches_pattern (filename f) cmd.pattern = false)
  ∧ matched_files env cmd = []
  ∧ ((move_files env cmd).1.files_matched = 0
     ∧ (move_files env cmd).1.files_affected = 0
     ∧ (move_files env cmd).1.errors = [])
  ∧ ((copy_files env cmd).1.files_matched = 0
     ∧ (copy_files env cmd).1.files_affected = 0
     ∧ (copy_files env cmd).1.errors = [])
  ∧ ((delete_files env cmd).1.files_matched = 0
     ∧ (delete_files env cmd).1.files_affected = 0
     ∧ (delete_files env cmd).1.errors = []) := by
  have hall : ∀ f : String, matches_pattern (filename f) cmd.pattern = false := fun f =>
    matches_pattern_slash_pattern (filename f) cmd.pattern h (slash_not_mem_filename f)
  have hnil : ∀ L : List String,
      (L.filter fun f => matches_pattern (filename f) cmd.pattern) = [] := by
    intro L
    rw [List.filter_eq_nil_iff]
    intro a _
    simp [hall a]
  refine ⟨hall, by simp [matched_files, scanned_files, hnil], ?_, ?_, ?_⟩ <;>
  · cases hs : is_safe_directory (expand_path env.home cmd.source) <;>
      cases hdst : is_safe_directory (expand_path env.home cmd.destination) <;>
        cases hdr : cmd.dry_run <;>
          simp [move_files, copy_files, delete_files, hs, hdst, hdr, hnil, runBatch_eq]

/-- C9 witness: the pattern `sub/*.txt` holds a separator, so the
recursively scanned `/data/sub/a.txt` does not match (the filter sees
only `a.txt`) and the delete batch matches nothing. -/
theorem claim9_witness :
    ('/' ∈ cmdDeleteWithSep.pattern.data)
  ∧ matches_pattern (filename "/data/sub/a.txt") cmdDeleteWithSep.pattern = false
  ∧ (delete_files envNested cmdDeleteWithSep).1.files_matched = 0 := by
  have h := claim9_filename_only_filter envNested cmdDeleteWithSep (by decide)
  exact ⟨by decide, h.1 "/data/sub/a.txt", h.2.2.2.2.1⟩
